/-
Verification of the heap-management core of the `oscamp` arceos labs:
  * `src/arceos/labs/lab_allocator/src/lib.rs`  (tiered Heap / LabByteAllocator)
  * `src/arceos/modules/bump_allocator/src/lib.rs`  (double-ended bump EarlyAllocator)

Shallow embedding conventions:
  * `usize` values are `Nat`.  Arithmetic the Rust source performs on `usize`
    is modelled with explicit overflow checks (`checked_add` / `checked_sub` /
    `checked_mul`): an overflowing operation, like a failed `assert!`, is a
    fatal runtime abort and is modelled as `Option.none`.  (Rust debug builds
    check every arithmetic operation; `assert!` aborts in every build.)
  * Fallible operations return `Except` paired with the resulting state;
    the whole call is wrapped in `Option`, `none` meaning abort.
  * The slab free-list module (`mod slab;` — its file `slab.rs` is not part of
    the sources) and the external `buddy_system_allocator` crate are modelled
    by their documented contracts; everything else is translated from the
    Rust source.
-/
import Mathlib

set_option linter.unusedVariables false

/-- 64-bit `usize` modulus. -/
def USIZE : Nat := 2 ^ 64

/-- Checked `usize` addition: `none` models the overflow abort. -/
def checked_add (a b : Nat) : Option Nat :=
  if a + b < USIZE then some (a + b) else none

/-- Checked `usize` subtraction: `none` models the underflow abort. -/
def checked_sub (a b : Nat) : Option Nat :=
  if b ≤ a then some (a - b) else none

/-- Checked `usize` multiplication: `none` models the overflow abort. -/
def checked_mul (a b : Nat) : Option Nat :=
  if a * b < USIZE then some (a * b) else none

/-- Bitwise complement `!a` on `usize`. -/
def usize_not (a : Nat) : Nat := USIZE - 1 - a % USIZE

/-- `core::alloc::Layout`: the (size, alignment) pair of an allocation
request.  (Rust guarantees `align` is a nonzero power of two.) -/
structure Layout where
  size : Nat
  align : Nat
deriving DecidableEq, Repr

/-- `allocator::AllocError` from the external `allocator` crate. -/
inductive AllocError where
  | InvalidParam
  | MemoryOverlap
  | NoMemory
  | NotAllocated
deriving DecidableEq, Repr

instance {ε α : Type} [DecidableEq ε] [DecidableEq α] : DecidableEq (Except ε α) := fun x y =>
  match x, y with
  | Except.ok a, Except.ok b =>
    if h : a = b then Decidable.isTrue (by rw [h])
    else Decidable.isFalse (fun hc => h (Except.ok.inj hc))
  | Except.error a, Except.error b =>
    if h : a = b then Decidable.isTrue (by rw [h])
    else Decidable.isFalse (fun hc => h (Except.error.inj hc))
  | Except.ok _, Except.error _ => Decidable.isFalse (fun hc => Except.noConfusion hc)
  | Except.error _, Except.ok _ => Decidable.isFalse (fun hc => Except.noConfusion hc)

/-- Mathematical align-up: least multiple of `a` that is `≥ x` (for `a > 0`). -/
def align_up (x a : Nat) : Nat := (x + a - 1) / a * a

namespace EarlyAllocator

/-- State of `EarlyAllocator<PAGE_SIZE>` (bump_allocator/src/lib.rs, lines 21-26):
one region `[start, end)` and the two bump cursors. -/
structure State where
  start : Nat
  end_ : Nat
  b_pos : Nat
  p_pos : Nat
deriving DecidableEq, Repr

/-- `EarlyAllocator::new` (lines 29-36). -/
def new : State := ⟨0, 0, 0, 0⟩

/-- Rust `usize::is_power_of_two`. -/
def is_power_of_two (n : Nat) : Bool := 0 < n && n &&& (n - 1) == 0

/-- `BaseAllocator::init` (lines 40-46): asserts the page size is a power of
two, then sets `start`, `end = start + size`, `b_pos = start`, `p_pos = end`. -/
def init (PAGE_SIZE start size : Nat) : Option State :=
  if is_power_of_two PAGE_SIZE then
    match checked_add start size with
    | some e => some ⟨start, e, start, e⟩
    | none => none
  else none

/-- `BaseAllocator::add_memory` (lines 48-50): always `Err(NoMemory)`,
state untouched. -/
def add_memory (s : State) (start size : Nat) : Except AllocError Unit × State :=
  (Except.error AllocError.NoMemory, s)

/-- `ByteAllocator::alloc` (lines 54-67):
`aligned_start = (b_pos + align - 1) & !(align - 1)`, asserted `≥ b_pos`;
succeeds iff `aligned_start + size ≤ p_pos`, bumping `b_pos`. -/
def alloc (s : State) (l : Layout) : Option (Except AllocError Nat × State) :=
  let start := s.b_pos
  match checked_add start l.align with
  | none => none
  | some t1 =>
    match checked_sub t1 1 with
    | none => none
    | some t2 =>
      match checked_sub l.align 1 with
      | none => none
      | some am =>
        let aligned_start := t2 &&& usize_not am
        if start ≤ aligned_start then
          match checked_add aligned_start l.size with
          | none => none
          | some e =>
            if e ≤ s.p_pos then
              some (Except.ok aligned_start, { s with b_pos := e })
            else
              some (Except.error AllocError.NoMemory, s)
        else none

/-- `ByteAllocator::dealloc` (lines 69-71): do nothing. -/
def dealloc (s : State) (pos : Nat) (l : Layout) : State := s

/-- `ByteAllocator::total_bytes` (lines 73-75). -/
def total_bytes (s : State) : Nat := s.end_ - s.start

/-- `ByteAllocator::used_bytes` (lines 77-79). -/
def used_bytes (s : State) : Nat := (s.b_pos - s.start) + (s.end_ - s.p_pos)

/-- `ByteAllocator::available_bytes` (lines 81-83). -/
def available_bytes (s : State) : Nat := s.p_pos - s.b_pos

/-- `PageAllocator::alloc_pages` (lines 89-99):
`aligned_start = p_pos - num_pages * PAGE_SIZE`; succeeds iff it is `≥ b_pos`,
lowering `p_pos`. -/
def alloc_pages (PAGE_SIZE : Nat) (s : State) (num_pages align_pow2 : Nat) :
    Option (Except AllocError Nat × State) :=
  match checked_mul num_pages PAGE_SIZE with
  | none => none
  | some size =>
    match checked_sub s.p_pos size with
    | none => none
    | some aligned_start =>
      if s.b_pos ≤ aligned_start then
        some (Except.ok aligned_start, { s with p_pos := aligned_start })
      else
        some (Except.error AllocError.NoMemory, s)

/-- `PageAllocator::dealloc_pages` (lines 101-103): do nothing. -/
def dealloc_pages (s : State) (pos num_pages : Nat) : State := s

/-- The cursor-ordering invariant `start ≤ b_pos ≤ p_pos ≤ end`. -/
def Inv (s : State) : Prop :=
  s.start ≤ s.b_pos ∧ s.b_pos ≤ s.p_pos ∧ s.p_pos ≤ s.end_

instance (s : State) : Decidable (Inv s) := by
  unfold Inv; infer_instance

/-- One observable operation of an `EarlyAllocator<PAGE_SIZE>`: a step exists
only when the operation runs to completion (no abort). -/
inductive Step (PAGE_SIZE : Nat) : State → State → Prop where
  | alloc (s : State) (l : Layout) (r : Except AllocError Nat) (s' : State)
      (h : alloc s l = some (r, s')) : Step PAGE_SIZE s s'
  | dealloc (s : State) (pos : Nat) (l : Layout) :
      Step PAGE_SIZE s (dealloc s pos l)
  | alloc_pages (s : State) (n a : Nat) (r : Except AllocError Nat) (s' : State)
      (h : alloc_pages PAGE_SIZE s n a = some (r, s')) : Step PAGE_SIZE s s'
  | dealloc_pages (s : State) (pos n : Nat) :
      Step PAGE_SIZE s (dealloc_pages s pos n)
  | add_memory (s : State) (st sz : Nat) (r : Except AllocError Unit) (s' : State)
      (h : add_memory s st sz = (r, s')) : Step PAGE_SIZE s s'

/-- Any finite sequence of operations. -/
def Steps (PAGE_SIZE : Nat) : State → State → Prop :=
  Relation.ReflTransGen (Step PAGE_SIZE)

end EarlyAllocator

/-- `SET_SIZE` (lab_allocator/src/lib.rs, line 11). -/
def SET_SIZE : Nat := 64

/-- `MIN_HEAP_SIZE` (lab_allocator/src/lib.rs, line 12). -/
def MIN_HEAP_SIZE : Nat := 0x8000

/-- Modelled from the spec: the `Slab<N>` free-list allocator of `mod slab;`
(its file `slab.rs` is not among the sources).  Per spec §4.2 it carries the
incrementally maintained `total_blocks`/`used_blocks` counters; the free list
itself (addresses of the `total_blocks - used_blocks` free blocks) is
abstracted away, since no claim constrains slab block addresses. -/
structure Slab where
  total_blocks : Nat
  used_blocks : Nat
deriving DecidableEq, Repr

/-- Modelled from the spec: `Slab::<N>::new(addr, size)`; only `new(0, 0)` is
ever called by the sources, and per spec §4.1 every class starts empty
(zero blocks). -/
def Slab.new (addr size : Nat) : Slab := ⟨0, 0⟩

/-- Model of the external `buddy_system_allocator::Heap<32>` crate: the
address ranges handed to it and its byte statistics (`stats_total_bytes`,
`stats_alloc_actual`).  Allocation succeeds exactly when the requested block
fits in the remaining capacity — an abstraction of the real free-list search
(which can only be less permissive); returned addresses are abstracted to `0`,
since no claim constrains buddy-tier addresses. -/
structure Buddy where
  regions : List (Nat × Nat)
  total : Nat
  allocated : Nat
deriving DecidableEq, Repr

/-- `buddy_system_allocator::Heap::new()`. -/
def Buddy.new : Buddy := ⟨[], 0, 0⟩

/-- `buddy_system_allocator::Heap::add_to_heap(start, end)`: records the range
`[start, end)` and raises `stats_total_bytes` by its length. -/
def Buddy.add_to_heap (b : Buddy) (start end_ : Nat) : Buddy :=
  ⟨b.regions ++ [(start, end_)], b.total + (end_ - start), b.allocated⟩

/-- `buddy_system_allocator::Heap::init(start, size)` = `add_to_heap(start, start+size)`. -/
def Buddy.init (b : Buddy) (start size : Nat) : Buddy :=
  b.add_to_heap start (start + size)

/-- Rust `usize::next_power_of_two`, written with structural fuel (64 doubling
steps suffice for any `usize`) so that proofs can evaluate it. -/
def next_pow2_go (n : Nat) : Nat → Nat → Nat
  | 0, power => power
  | fuel + 1, power => if n ≤ power then power else next_pow2_go n fuel (power * 2)

/-- Rust `usize::next_power_of_two`. -/
def next_pow2 (n : Nat) : Nat := next_pow2_go n 64 1

/-- The block size the buddy crate actually reserves for a layout:
`max(size.next_power_of_two(), max(align, size_of::<usize>()))`. -/
def Buddy.block_size (l : Layout) : Nat :=
  max (next_pow2 l.size) (max l.align 8)

/-- `buddy_system_allocator::Heap::alloc(layout)` (model): succeeds iff the
reserved block fits, raising `stats_alloc_actual` by the block size. -/
def Buddy.alloc (b : Buddy) (l : Layout) : Except Unit Nat × Buddy :=
  if b.allocated + Buddy.block_size l ≤ b.total then
    (Except.ok 0, { b with allocated := b.allocated + Buddy.block_size l })
  else
    (Except.error (), b)

/-- `buddy_system_allocator::Heap::dealloc(ptr, layout)` (model): lowers
`stats_alloc_actual` by the reserved block size. -/
def Buddy.dealloc (b : Buddy) (ptr : Nat) (l : Layout) : Buddy :=
  { b with allocated := b.allocated - Buddy.block_size l }

/-- Modelled from the spec: `Slab::<N>::allocate(layout, buddy)` (spec §4.2):
pop a free block if one is available, else request one growth chunk
(`SET_SIZE` blocks of `N` bytes) from the buddy tier, carve it into blocks and
serve one; if the buddy tier cannot supply the chunk the call fails.
Block addresses are abstracted (no claim constrains them). -/
def Slab.allocate (N : Nat) (s : Slab) (b : Buddy) : Except Unit Nat × Slab × Buddy :=
  if s.used_blocks < s.total_blocks then
    (Except.ok 0, { s with used_blocks := s.used_blocks + 1 }, b)
  else
    match Buddy.alloc b ⟨SET_SIZE * N, N⟩ with
    | (Except.ok addr, b') =>
      (Except.ok addr, ⟨s.total_blocks + SET_SIZE, s.used_blocks + 1⟩, b')
    | (Except.error _, _) => (Except.error (), s, b)

/-- Modelled from the spec: `Slab::<N>::deallocate(ptr)` (spec §4.2): push the
block back on the free list, with no validation of `ptr`. -/
def Slab.deallocate (s : Slab) (ptr : Nat) : Slab :=
  { s with used_blocks := s.used_blocks - 1 }

/-- `enum HeapAllocator` (lab_allocator/src/lib.rs, lines 74-84). -/
inductive HeapAllocator where
  | Slab64Bytes
  | Slab128Bytes
  | Slab256Bytes
  | Slab512Bytes
  | Slab1024Bytes
  | Slab2048Bytes
  | Slab4096Bytes
  | Slab8192Bytes
  | BuddyAllocator
deriving DecidableEq, Repr

/-- Capacity of a slab size class (`none` for the buddy tier). -/
def HeapAllocator.slab_capacity : HeapAllocator → Option Nat
  | .Slab64Bytes => some 64
  | .Slab128Bytes => some 128
  | .Slab256Bytes => some 256
  | .Slab512Bytes => some 512
  | .Slab1024Bytes => some 1024
  | .Slab2048Bytes => some 2048
  | .Slab4096Bytes => some 4096
  | .Slab8192Bytes => some 8192
  | .BuddyAllocator => none

/-- `struct Heap` (lab_allocator/src/lib.rs, lines 86-96). -/
structure Heap where
  slab_64_bytes : Slab
  slab_128_bytes : Slab
  slab_256_bytes : Slab
  slab_512_bytes : Slab
  slab_1024_bytes : Slab
  slab_2048_bytes : Slab
  slab_4096_bytes : Slab
  slab_8192_bytes : Slab
  buddy_allocator : Buddy
deriving DecidableEq, Repr

namespace Heap

/-- `Heap::new(heap_start_addr, heap_size)` (lib.rs, lines 106-134): three
`assert!`s (modelled as `none` on failure), then all slab classes empty and
the buddy tier initialized over the whole range. -/
def new (heap_start_addr heap_size : Nat) : Option Heap :=
  if heap_start_addr % 4096 = 0 then
    if MIN_HEAP_SIZE ≤ heap_size then
      if heap_size % MIN_HEAP_SIZE = 0 then
        some
          { slab_64_bytes := Slab.new 0 0
            slab_128_bytes := Slab.new 0 0
            slab_256_bytes := Slab.new 0 0
            slab_512_bytes := Slab.new 0 0
            slab_1024_bytes := Slab.new 0 0
            slab_2048_bytes := Slab.new 0 0
            slab_4096_bytes := Slab.new 0 0
            slab_8192_bytes := Slab.new 0 0
            buddy_allocator := Buddy.new.init heap_start_addr heap_size }
      else none
    else none
  else none

/-- `Heap::add_memory(heap_start_addr, heap_size)` (lib.rs, lines 143-154):
two `assert!`s, then `buddy_allocator.add_to_heap(start, start + size)`.
The caller-side sum `heap_start_addr + heap_size` (line 153) is `usize`
arithmetic and is modelled checked: its overflow is an abort. -/
def add_memory (h : Heap) (heap_start_addr heap_size : Nat) : Option Heap :=
  if heap_start_addr % 4096 = 0 then
    if heap_size % 4096 = 0 then
      match checked_add heap_start_addr heap_size with
      | some e =>
        some { h with buddy_allocator :=
          h.buddy_allocator.add_to_heap heap_start_addr e }
      | none => none
    else none
  else none

/-- `Heap::layout_to_allocator(layout)` (lib.rs, lines 262-282), verbatim
translation of the if-chain. -/
def layout_to_allocator (l : Layout) : HeapAllocator :=
  if 8192 < l.size then
    .BuddyAllocator
  else if l.size ≤ 64 ∧ l.align ≤ 64 then
    .Slab64Bytes
  else if l.size ≤ 128 ∧ l.align ≤ 128 then
    .Slab128Bytes
  else if l.size ≤ 256 ∧ l.align ≤ 256 then
    .Slab256Bytes
  else if l.size ≤ 512 ∧ l.align ≤ 512 then
    .Slab512Bytes
  else if l.size ≤ 1024 ∧ l.align ≤ 1024 then
    .Slab1024Bytes
  else if l.size ≤ 2048 ∧ l.align ≤ 2048 then
    .Slab2048Bytes
  else if l.size ≤ 4096 ∧ l.align ≤ 4096 then
    .Slab4096Bytes
  else
    .Slab8192Bytes

/-- `Heap::allocate(layout)` (lib.rs, lines 184-216): classify, then dispatch
to the chosen sub-allocator. -/
def allocate (h : Heap) (l : Layout) : Except Unit Nat × Heap :=
  match layout_to_allocator l with
  | .Slab64Bytes =>
    let (r, s, b) := h.slab_64_bytes.allocate 64 h.buddy_allocator
    (r, { h with slab_64_bytes := s, buddy_allocator := b })
  | .Slab128Bytes =>
    let (r, s, b) := h.slab_128_bytes.allocate 128 h.buddy_allocator
    (r, { h with slab_128_bytes := s, buddy_allocator := b })
  | .Slab256Bytes =>
    let (r, s, b) := h.slab_256_bytes.allocate 256 h.buddy_allocator
    (r, { h with slab_256_bytes := s, buddy_allocator := b })
  | .Slab512Bytes =>
    let (r, s, b) := h.slab_512_bytes.allocate 512 h.buddy_allocator
    (r, { h with slab_512_bytes := s, buddy_allocator := b })
  | .Slab1024Bytes =>
    let (r, s, b) := h.slab_1024_bytes.allocate 1024 h.buddy_allocator
    (r, { h with slab_1024_bytes := s, buddy_allocator := b })
  | .Slab2048Bytes =>
    let (r, s, b) := h.slab_2048_bytes.allocate 2048 h.buddy_allocator
    (r, { h with slab_2048_bytes := s, buddy_allocator := b })
  | .Slab4096Bytes =>
    let (r, s, b) := h.slab_4096_bytes.allocate 4096 h.buddy_allocator
    (r, { h with slab_4096_bytes := s, buddy_allocator := b })
  | .Slab8192Bytes =>
    let (r, s, b) := h.slab_8192_bytes.allocate 8192 h.buddy_allocator
    (r, { h with slab_8192_bytes := s, buddy_allocator := b })
  | .BuddyAllocator =>
    let (r, b) := h.buddy_allocator.alloc l
    (r, { h with buddy_allocator := b })

/-- `Heap::deallocate(ptr, layout)` (lib.rs, lines 229-243): classify by the
layout, then return the block to that sub-allocator. -/
def deallocate (h : Heap) (ptr : Nat) (l : Layout) : Heap :=
  match layout_to_allocator l with
  | .Slab64Bytes => { h with slab_64_bytes := h.slab_64_bytes.deallocate ptr }
  | .Slab128Bytes => { h with slab_128_bytes := h.slab_128_bytes.deallocate ptr }
  | .Slab256Bytes => { h with slab_256_bytes := h.slab_256_bytes.deallocate ptr }
  | .Slab512Bytes => { h with slab_512_bytes := h.slab_512_bytes.deallocate ptr }
  | .Slab1024Bytes => { h with slab_1024_bytes := h.slab_1024_bytes.deallocate ptr }
  | .Slab2048Bytes => { h with slab_2048_bytes := h.slab_2048_bytes.deallocate ptr }
  | .Slab4096Bytes => { h with slab_4096_bytes := h.slab_4096_bytes.deallocate ptr }
  | .Slab8192Bytes => { h with slab_8192_bytes := h.slab_8192_bytes.deallocate ptr }
  | .BuddyAllocator => { h with buddy_allocator := h.buddy_allocator.dealloc ptr l }

/-- `Heap::total_bytes()` (lib.rs, lines 285-295): all eight classes plus the
buddy tier. -/
def total_bytes (h : Heap) : Nat :=
  h.slab_64_bytes.total_blocks * 64
    + h.slab_128_bytes.total_blocks * 128
    + h.slab_256_bytes.total_blocks * 256
    + h.slab_512_bytes.total_blocks * 512
    + h.slab_1024_bytes.total_blocks * 1024
    + h.slab_2048_bytes.total_blocks * 2048
    + h.slab_4096_bytes.total_blocks * 4096
    + h.slab_8192_bytes.total_blocks * 8192
    + h.buddy_allocator.total

/-- `Heap::used_bytes()` (lib.rs, lines 298-307), translated exactly as
written: the sum runs over the 64- to 4096-byte classes and the buddy tier —
the source has no `slab_8192_bytes` term. -/
def used_bytes (h : Heap) : Nat :=
  h.slab_64_bytes.used_blocks * 64
    + h.slab_128_bytes.used_blocks * 128
    + h.slab_256_bytes.used_blocks * 256
    + h.slab_512_bytes.used_blocks * 512
    + h.slab_1024_bytes.used_blocks * 1024
    + h.slab_2048_bytes.used_blocks * 2048
    + h.slab_4096_bytes.used_blocks * 4096
    + h.buddy_allocator.allocated

/-- The aggregation the spec (§4.1) and claim C2 describe: the sum over all
eight slab classes — `slab_8192_bytes` included — plus the buddy tier.
Stated from the spec's words, for comparison with `Heap.used_bytes`. -/
def used_bytes_claimed (h : Heap) : Nat :=
  h.slab_64_bytes.used_blocks * 64
    + h.slab_128_bytes.used_blocks * 128
    + h.slab_256_bytes.used_blocks * 256
    + h.slab_512_bytes.used_blocks * 512
    + h.slab_1024_bytes.used_blocks * 1024
    + h.slab_2048_bytes.used_blocks * 2048
    + h.slab_4096_bytes.used_blocks * 4096
    + h.slab_8192_bytes.used_blocks * 8192
    + h.buddy_allocator.allocated

/-- `Heap::available_bytes()` (lib.rs, lines 310-312). -/
def available_bytes (h : Heap) : Nat :=
  h.total_bytes - h.used_bytes

end Heap

/-- `struct LabByteAllocator` (lib.rs, lines 21-23): an optional `Heap`. -/
structure LabByteAllocator where
  inner : Option Heap
deriving DecidableEq, Repr

namespace LabByteAllocator

/-- `LabByteAllocator::new()` (lib.rs, lines 26-30). -/
def new : LabByteAllocator := ⟨none⟩

/-- `BaseAllocator::init` for `LabByteAllocator` (lib.rs, lines 42-44):
builds the inner `Heap` (whose asserts may abort). -/
def init (a : LabByteAllocator) (start size : Nat) : Option LabByteAllocator :=
  match Heap.new start size with
  | some h => some ⟨some h⟩
  | none => none

/-- `BaseAllocator::add_memory` for `LabByteAllocator` (lib.rs, lines 45-50):
`unwrap` of the inner heap (abort when uninitialized), `Heap::add_memory`
(whose asserts may abort), then unconditionally `Ok(())`. -/
def add_memory (a : LabByteAllocator) (start size : Nat) :
    Option (Except AllocError Unit × LabByteAllocator) :=
  match a.inner with
  | none => none
  | some h =>
    match h.add_memory start size with
    | some h' => some (Except.ok (), ⟨some h'⟩)
    | none => none

end LabByteAllocator

/-! ### Arithmetic facts about the bit-mask alignment computation -/

theorem usize_not_pow2_sub_one {j : Nat} (hj : j < 64) :
    usize_not (2 ^ j - 1) = 2 ^ 64 - 2 ^ j := by
  have h1 : 2 ^ j < 2 ^ 64 := Nat.pow_lt_pow_right (by norm_num) hj
  have h0 : 0 < 2 ^ j := Nat.pos_pow_of_pos j (by norm_num)
  unfold usize_not USIZE
  generalize hg : (2 : Nat) ^ j = x at h1 h0 ⊢
  rw [Nat.mod_eq_of_lt (by omega)]
  omega

theorem land_high_mask {k n x : Nat} (hk : k ≤ n) (hx : x < 2 ^ n) :
    x &&& (2 ^ n - 2 ^ k) = x / 2 ^ k * 2 ^ k := by
  have hmask : 2 ^ n - 2 ^ k = (2 ^ (n - k) - 1) <<< k := by
    rw [Nat.shiftLeft_eq, Nat.sub_mul, Nat.one_mul, ← Nat.pow_add, Nat.sub_add_cancel hk]
  have hdiv : x / 2 ^ k * 2 ^ k = (x >>> k) <<< k := by
    rw [Nat.shiftLeft_eq, Nat.shiftRight_eq_div_pow]
  rw [hmask, hdiv]
  apply Nat.eq_of_testBit_eq
  intro i
  simp only [Nat.testBit_and, Nat.testBit_shiftLeft, Nat.testBit_shiftRight,
    Nat.testBit_two_pow_sub_one]
  by_cases hik : k ≤ i
  · rw [show k + (i - k) = i from by omega]
    by_cases hin : i < n
    · have h1 : i - k < n - k := by omega
      simp [ge_iff_le, hik, h1, Bool.and_comm]
    · have hxi : x.testBit i = false :=
        Nat.testBit_lt_two_pow (lt_of_lt_of_le hx (Nat.pow_le_pow_right (by norm_num) (by omega)))
      simp [hxi]
  · simp [ge_iff_le, hik]

theorem align_up_ge {x a : Nat} (ha : 0 < a) : x ≤ align_up x a := by
  unfold align_up
  have h1 := Nat.div_add_mod (x + a - 1) a
  have h2 : (x + a - 1) % a < a := Nat.mod_lt _ ha
  obtain ⟨t, ht⟩ : ∃ t, (x + a - 1) / a * a = t := ⟨_, rfl⟩
  rw [ht]
  rw [Nat.mul_comm] at h1
  rw [ht] at h1
  omega

theorem align_up_mod (x a : Nat) : align_up x a % a = 0 :=
  Nat.mul_mod_left _ a

/-- The bit-twiddled alignment computation of `EarlyAllocator::alloc`, stepped
through with no overflow: it computes the mathematical `align_up` and the
whole call reduces to the collision test against `p_pos`. -/
theorem alloc_pow2_eq {s : EarlyAllocator.State} {l : Layout} {k : Nat}
    (halign : l.align = 2 ^ k)
    (h1 : s.b_pos + l.align < USIZE)
    (h2 : align_up s.b_pos l.align + l.size < USIZE) :
    EarlyAllocator.alloc s l =
      if align_up s.b_pos l.align + l.size ≤ s.p_pos then
        some (Except.ok (align_up s.b_pos l.align),
          { s with b_pos := align_up s.b_pos l.align + l.size })
      else
        some (Except.error AllocError.NoMemory, s) := by
  have hk : k < 64 := by
    by_contra hc
    have hle : 2 ^ 64 ≤ 2 ^ k := Nat.pow_le_pow_right (by norm_num) (by omega)
    unfold USIZE at h1
    omega
  have hpos : 0 < l.align := by
    rw [halign]; exact Nat.pos_pow_of_pos k (by norm_num)
  have e1 : checked_add s.b_pos l.align = some (s.b_pos + l.align) := by
    unfold checked_add; rw [if_pos h1]
  have e2 : checked_sub (s.b_pos + l.align) 1 = some (s.b_pos + l.align - 1) := by
    unfold checked_sub; rw [if_pos (by omega)]
  have e3 : checked_sub l.align 1 = some (l.align - 1) := by
    unfold checked_sub; rw [if_pos (by omega)]
  have e4 : (s.b_pos + l.align - 1) &&& usize_not (l.align - 1) =
      align_up s.b_pos l.align := by
    rw [halign, usize_not_pow2_sub_one hk]
    have hx : s.b_pos + 2 ^ k - 1 < 2 ^ 64 := by
      rw [halign] at h1; unfold USIZE at h1; omega
    rw [land_high_mask (by omega) hx]
    unfold align_up
    rfl
  have e5 : checked_add (align_up s.b_pos l.align) l.size =
      some (align_up s.b_pos l.align + l.size) := by
    unfold checked_add; rw [if_pos h2]
  simp only [EarlyAllocator.alloc, e1, e2, e3, e4, e5]
  rw [if_pos (align_up_ge hpos)]



/-! ### Cursor frame conditions for `EarlyAllocator` operations -/

theorem early_alloc_frame {s : EarlyAllocator.State} {l : Layout}
    {r : Except AllocError Nat} {s' : EarlyAllocator.State}
    (h : EarlyAllocator.alloc s l = some (r, s')) :
    s' = s ∨
      (s'.start = s.start ∧ s'.end_ = s.end_ ∧ s'.p_pos = s.p_pos ∧
        s.b_pos ≤ s'.b_pos ∧ s'.b_pos ≤ s.p_pos) := by
  unfold EarlyAllocator.alloc at h
  dsimp only at h
  repeat' split at h
  all_goals try exact Option.noConfusion h
  all_goals cases h
  all_goals first
    | exact Or.inl rfl
    | (simp_all only [checked_add, checked_sub, Option.ite_none_right_eq_some,
        Option.some.injEq]
       right
       refine ⟨?_, ?_, ?_, ?_, ?_⟩ <;> first | trivial | (dsimp only; omega))

theorem early_alloc_pages_frame {PS : Nat} {s : EarlyAllocator.State} {n a : Nat}
    {r : Except AllocError Nat} {s' : EarlyAllocator.State}
    (h : EarlyAllocator.alloc_pages PS s n a = some (r, s')) :
    s' = s ∨
      (s'.start = s.start ∧ s'.end_ = s.end_ ∧ s'.b_pos = s.b_pos ∧
        s.b_pos ≤ s'.p_pos ∧ s'.p_pos ≤ s.p_pos) := by
  unfold EarlyAllocator.alloc_pages at h
  repeat' split at h
  all_goals try exact Option.noConfusion h
  all_goals cases h
  all_goals first
    | exact Or.inl rfl
    | (simp_all only [checked_mul, checked_sub, Option.ite_none_right_eq_some,
        Option.some.injEq]
       right
       refine ⟨?_, ?_, ?_, ?_, ?_⟩ <;> first | trivial | (dsimp only; omega))

theorem early_step_inv {PS : Nat} {s s' : EarlyAllocator.State}
    (hs : EarlyAllocator.Inv s) (h : EarlyAllocator.Step PS s s') :
    EarlyAllocator.Inv s' ∧ s.b_pos ≤ s'.b_pos ∧ s'.p_pos ≤ s.p_pos := by
  obtain ⟨hi1, hi2, hi3⟩ := hs
  cases h with
  | alloc l r s2 hal =>
    rcases early_alloc_frame hal with rfl | ⟨h1, h2, h3, h4, h5⟩
    · exact ⟨⟨hi1, hi2, hi3⟩, Nat.le_refl _, Nat.le_refl _⟩
    · exact ⟨⟨by omega, by omega, by omega⟩, by omega, by omega⟩
  | dealloc pos l =>
    exact ⟨⟨hi1, hi2, hi3⟩, Nat.le_refl _, Nat.le_refl _⟩
  | alloc_pages n a r s2 hap =>
    rcases early_alloc_pages_frame hap with rfl | ⟨h1, h2, h3, h4, h5⟩
    · exact ⟨⟨hi1, hi2, hi3⟩, Nat.le_refl _, Nat.le_refl _⟩
    · exact ⟨⟨by omega, by omega, by omega⟩, by omega, by omega⟩
  | dealloc_pages pos n =>
    exact ⟨⟨hi1, hi2, hi3⟩, Nat.le_refl _, Nat.le_refl _⟩
  | add_memory st sz r s2 hm =>
    cases hm
    exact ⟨⟨hi1, hi2, hi3⟩, Nat.le_refl _, Nat.le_refl _⟩

theorem early_steps_inv {PS : Nat} {s s' : EarlyAllocator.State}
    (hs : EarlyAllocator.Inv s) (h : EarlyAllocator.Steps PS s s') :
    EarlyAllocator.Inv s' ∧ s.b_pos ≤ s'.b_pos ∧ s'.p_pos ≤ s.p_pos := by
  induction h with
  | refl => exact ⟨hs, Nat.le_refl _, Nat.le_refl _⟩
  | tail hab hbc ih =>
    obtain ⟨hinv, hb, hp⟩ := ih
    obtain ⟨hinv', hb', hp'⟩ := early_step_inv hinv hbc
    exact ⟨hinv', Nat.le_trans hb hb', Nat.le_trans hp' hp⟩

theorem early_init_inv {PS start size : Nat} {s : EarlyAllocator.State}
    (h : EarlyAllocator.init PS start size = some s) :
    EarlyAllocator.Inv s ∧ s.start = start ∧ s.b_pos = start ∧
      s.end_ = start + size ∧ s.p_pos = start + size := by
  unfold EarlyAllocator.init at h
  split at h
  · repeat' split at h
    all_goals try exact Option.noConfusion h
    all_goals cases h
    case _ e heq =>
      unfold checked_add at heq
      split at heq
      · cases heq
        exact ⟨⟨Nat.le_refl _, by show start ≤ start + size; omega, Nat.le_refl _⟩,
          rfl, rfl, rfl, rfl⟩
      · exact Option.noConfusion heq
  · exact Option.noConfusion h

/-! ### Counter well-formedness for the tiered `Heap` -/

/-- A slab class never has more used than total blocks. -/
def SlabWf (s : Slab) : Prop := s.used_blocks ≤ s.total_blocks

/-- The buddy tier never has more allocated bytes than it owns. -/
def BuddyWf (b : Buddy) : Prop := b.allocated ≤ b.total

/-- Componentwise counter sanity of a `Heap`. -/
def HeapWf (h : Heap) : Prop :=
  SlabWf h.slab_64_bytes ∧ SlabWf h.slab_128_bytes ∧ SlabWf h.slab_256_bytes ∧
  SlabWf h.slab_512_bytes ∧ SlabWf h.slab_1024_bytes ∧ SlabWf h.slab_2048_bytes ∧
  SlabWf h.slab_4096_bytes ∧ SlabWf h.slab_8192_bytes ∧ BuddyWf h.buddy_allocator

theorem buddy_alloc_wf {b : Buddy} {l : Layout} (hb : BuddyWf b) :
    BuddyWf (b.alloc l).2 := by
  unfold Buddy.alloc
  split
  · exact (by assumption : b.allocated + Buddy.block_size l ≤ b.total)
  · exact hb

theorem slab_allocate_wf {N : Nat} {s : Slab} {b : Buddy}
    (hs : SlabWf s) (hb : BuddyWf b) :
    SlabWf (Slab.allocate N s b).2.1 ∧ BuddyWf (Slab.allocate N s b).2.2 := by
  unfold Slab.allocate
  split
  · exact ⟨by unfold SlabWf at *; dsimp only; omega, hb⟩
  · unfold SlabWf at hs
    rcases hba : Buddy.alloc b ⟨SET_SIZE * N, N⟩ with ⟨r, b'⟩
    have hb' : BuddyWf b' := by
      have := buddy_alloc_wf (b := b) (l := ⟨SET_SIZE * N, N⟩) hb
      rw [hba] at this
      exact this
    rcases r with e | a
    · simp only [hba]
      exact ⟨hs, hb⟩
    · simp only [hba]
      exact ⟨by unfold SlabWf; dsimp only; unfold SET_SIZE; omega, hb'⟩

theorem slab_deallocate_wf (ptr : Nat) {s : Slab} (hs : SlabWf s) :
    SlabWf (s.deallocate ptr) := by
  unfold SlabWf Slab.deallocate at *
  dsimp only
  omega

theorem buddy_dealloc_wf (ptr : Nat) (l : Layout) {b : Buddy} (hb : BuddyWf b) :
    BuddyWf (b.dealloc ptr l) := by
  unfold BuddyWf Buddy.dealloc at *
  dsimp only
  omega

theorem buddy_add_to_heap_wf {b : Buddy} {st e : Nat} (hb : BuddyWf b) :
    BuddyWf (b.add_to_heap st e) := by
  unfold BuddyWf Buddy.add_to_heap at *
  dsimp only
  omega

theorem heap_new_wf {start size : Nat} {h : Heap} (hn : Heap.new start size = some h) :
    HeapWf h := by
  unfold Heap.new at hn
  repeat' split at hn
  all_goals try exact Option.noConfusion hn
  cases hn
  refine ⟨?_, ?_, ?_, ?_, ?_, ?_, ?_, ?_, ?_⟩ <;>
    first
      | exact Nat.le_refl 0
      | (show (0 : Nat) ≤ _; omega)

theorem heap_add_memory_wf {h h' : Heap} {start size : Nat}
    (hw : HeapWf h) (ha : Heap.add_memory h start size = some h') : HeapWf h' := by
  unfold Heap.add_memory at ha
  repeat' split at ha
  all_goals try exact Option.noConfusion ha
  cases ha
  obtain ⟨w1, w2, w3, w4, w5, w6, w7, w8, w9⟩ := hw
  exact ⟨w1, w2, w3, w4, w5, w6, w7, w8, buddy_add_to_heap_wf w9⟩

theorem heap_allocate_wf {h : Heap} {l : Layout} (hw : HeapWf h) :
    HeapWf (h.allocate l).2 := by
  obtain ⟨w1, w2, w3, w4, w5, w6, w7, w8, w9⟩ := hw
  unfold Heap.allocate
  cases hc : Heap.layout_to_allocator l <;> dsimp only
  case Slab64Bytes =>
    obtain ⟨a1, a2⟩ := slab_allocate_wf (N := 64) w1 w9
    exact ⟨a1, w2, w3, w4, w5, w6, w7, w8, a2⟩
  case Slab128Bytes =>
    obtain ⟨a1, a2⟩ := slab_allocate_wf (N := 128) w2 w9
    exact ⟨w1, a1, w3, w4, w5, w6, w7, w8, a2⟩
  case Slab256Bytes =>
    obtain ⟨a1, a2⟩ := slab_allocate_wf (N := 256) w3 w9
    exact ⟨w1, w2, a1, w4, w5, w6, w7, w8, a2⟩
  case Slab512Bytes =>
    obtain ⟨a1, a2⟩ := slab_allocate_wf (N := 512) w4 w9
    exact ⟨w1, w2, w3, a1, w5, w6, w7, w8, a2⟩
  case Slab1024Bytes =>
    obtain ⟨a1, a2⟩ := slab_allocate_wf (N := 1024) w5 w9
    exact ⟨w1, w2, w3, w4, a1, w6, w7, w8, a2⟩
  case Slab2048Bytes =>
    obtain ⟨a1, a2⟩ := slab_allocate_wf (N := 2048) w6 w9
    exact ⟨w1, w2, w3, w4, w5, a1, w7, w8, a2⟩
  case Slab4096Bytes =>
    obtain ⟨a1, a2⟩ := slab_allocate_wf (N := 4096) w7 w9
    exact ⟨w1, w2, w3, w4, w5, w6, a1, w8, a2⟩
  case Slab8192Bytes =>
    obtain ⟨a1, a2⟩ := slab_allocate_wf (N := 8192) w8 w9
    exact ⟨w1, w2, w3, w4, w5, w6, w7, a1, a2⟩
  case BuddyAllocator =>
    exact ⟨w1, w2, w3, w4, w5, w6, w7, w8, buddy_alloc_wf w9⟩

theorem heap_deallocate_wf {h : Heap} {ptr : Nat} {l : Layout} (hw : HeapWf h) :
    HeapWf (h.deallocate ptr l) := by
  obtain ⟨w1, w2, w3, w4, w5, w6, w7, w8, w9⟩ := hw
  unfold Heap.deallocate
  cases hc : Heap.layout_to_allocator l
  case Slab64Bytes => exact ⟨slab_deallocate_wf ptr w1, w2, w3, w4, w5, w6, w7, w8, w9⟩
  case Slab128Bytes => exact ⟨w1, slab_deallocate_wf ptr w2, w3, w4, w5, w6, w7, w8, w9⟩
  case Slab256Bytes => exact ⟨w1, w2, slab_deallocate_wf ptr w3, w4, w5, w6, w7, w8, w9⟩
  case Slab512Bytes => exact ⟨w1, w2, w3, slab_deallocate_wf ptr w4, w5, w6, w7, w8, w9⟩
  case Slab1024Bytes => exact ⟨w1, w2, w3, w4, slab_deallocate_wf ptr w5, w6, w7, w8, w9⟩
  case Slab2048Bytes => exact ⟨w1, w2, w3, w4, w5, slab_deallocate_wf ptr w6, w7, w8, w9⟩
  case Slab4096Bytes => exact ⟨w1, w2, w3, w4, w5, w6, slab_deallocate_wf ptr w7, w8, w9⟩
  case Slab8192Bytes => exact ⟨w1, w2, w3, w4, w5, w6, w7, slab_deallocate_wf ptr w8, w9⟩
  case BuddyAllocator => exact ⟨w1, w2, w3, w4, w5, w6, w7, w8, buddy_dealloc_wf ptr l w9⟩

/-- The `Heap` states reachable through the public interface:
construction by `new`, then any sequence of `allocate` / `deallocate` /
`add_memory` calls (the latter only when its asserts pass). -/
inductive HeapReach : Heap → Prop where
  | new (start size : Nat) (h : Heap) (hn : Heap.new start size = some h) :
      HeapReach h
  | allocate (h : Heap) (l : Layout) (hr : HeapReach h) :
      HeapReach (h.allocate l).2
  | deallocate (h : Heap) (ptr : Nat) (l : Layout) (hr : HeapReach h) :
      HeapReach (h.deallocate ptr l)
  | add_memory (h h' : Heap) (start size : Nat) (hr : HeapReach h)
      (ha : Heap.add_memory h start size = some h') : HeapReach h'

theorem heapReach_wf {h : Heap} (hr : HeapReach h) : HeapWf h := by
  induction hr with
  | new start size h hn => exact heap_new_wf hn
  | allocate h l hr ih => exact heap_allocate_wf ih
  | deallocate h ptr l hr ih => exact heap_deallocate_wf ih
  | add_memory h h' start size hr ha ih => exact heap_add_memory_wf ih ha

theorem heap_used_le_total {h : Heap} (hw : HeapWf h) :
    Heap.used_bytes h ≤ Heap.total_bytes h := by
  obtain ⟨w1, w2, w3, w4, w5, w6, w7, w8, w9⟩ := hw
  unfold SlabWf BuddyWf at *
  unfold Heap.used_bytes Heap.total_bytes
  have m1 := Nat.mul_le_mul_right 64 w1
  have m2 := Nat.mul_le_mul_right 128 w2
  have m3 := Nat.mul_le_mul_right 256 w3
  have m4 := Nat.mul_le_mul_right 512 w4
  have m5 := Nat.mul_le_mul_right 1024 w5
  have m6 := Nat.mul_le_mul_right 2048 w6
  have m7 := Nat.mul_le_mul_right 4096 w7
  omega

/-! ## Claim theorems -/

/-- C1 (amended): for `size > 8192` classification always routes to the buddy
tier; for `size ≤ 8192` *and* `align ≤ 8192` the chosen class is the minimal
size class whose capacity accommodates both the size and the alignment.
(The original claim, with no bound on `align`, fails: see the
counterexample.) -/
theorem claim_c1_classification (l : Layout) :
    (8192 < l.size → Heap.layout_to_allocator l = HeapAllocator.BuddyAllocator) ∧
    (l.size ≤ 8192 → l.align ≤ 8192 →
      ∃ c, (Heap.layout_to_allocator l).slab_capacity = some c ∧
        l.size ≤ c ∧ l.align ≤ c ∧
        ∀ d, (d = 64 ∨ d = 128 ∨ d = 256 ∨ d = 512 ∨ d = 1024 ∨ d = 2048 ∨
            d = 4096 ∨ d = 8192) → l.size ≤ d → l.align ≤ d → c ≤ d) := by
  constructor
  · intro hgt
    unfold Heap.layout_to_allocator
    rw [if_pos hgt]
  · intro hs ha
    unfold Heap.layout_to_allocator
    split_ifs with h0 h1 h2 h3 h4 h5 h6 h7
    · omega
    · refine ⟨64, rfl, h1.1, h1.2, ?_⟩
      rintro d (rfl | rfl | rfl | rfl | rfl | rfl | rfl | rfl) hsd had <;> omega
    · refine ⟨128, rfl, h2.1, h2.2, ?_⟩
      rintro d (rfl | rfl | rfl | rfl | rfl | rfl | rfl | rfl) hsd had <;> omega
    · refine ⟨256, rfl, h3.1, h3.2, ?_⟩
      rintro d (rfl | rfl | rfl | rfl | rfl | rfl | rfl | rfl) hsd had <;> omega
    · refine ⟨512, rfl, h4.1, h4.2, ?_⟩
      rintro d (rfl | rfl | rfl | rfl | rfl | rfl | rfl | rfl) hsd had <;> omega
    · refine ⟨1024, rfl, h5.1, h5.2, ?_⟩
      rintro d (rfl | rfl | rfl | rfl | rfl | rfl | rfl | rfl) hsd had <;> omega
    · refine ⟨2048, rfl, h6.1, h6.2, ?_⟩
      rintro d (rfl | rfl | rfl | rfl | rfl | rfl | rfl | rfl) hsd had <;> omega
    · refine ⟨4096, rfl, h7.1, h7.2, ?_⟩
      rintro d (rfl | rfl | rfl | rfl | rfl | rfl | rfl | rfl) hsd had <;> omega
    · refine ⟨8192, rfl, hs, ha, ?_⟩
      rintro d (rfl | rfl | rfl | rfl | rfl | rfl | rfl | rfl) hsd had <;> omega

/-- Witness for `claim_c1_classification`: `Layout{size:100, align:8}` gets the
128-byte class, the minimal one fitting both constraints. -/
theorem claim_c1_classification_witness :
    ∃ c, (Heap.layout_to_allocator ⟨100, 8⟩).slab_capacity = some c ∧
      100 ≤ c ∧ 8 ≤ c ∧
      ∀ d, (d = 64 ∨ d = 128 ∨ d = 256 ∨ d = 512 ∨ d = 1024 ∨ d = 2048 ∨
          d = 4096 ∨ d = 8192) → 100 ≤ d → 8 ≤ d → c ≤ d :=
  (claim_c1_classification ⟨100, 8⟩).2 (by norm_num) (by norm_num)

/-- C1 counterexample: `Layout{size:64, align:16384}` has `size ≤ 8192`, but
the code routes it to the 8192-byte class whose capacity does not cover the
alignment — so the chosen class is not a class `C` with
`size ≤ C.capacity ∧ align ≤ C.capacity` (no such class exists). -/
theorem claim_c1_counterexample :
    Heap.layout_to_allocator ⟨64, 16384⟩ = HeapAllocator.Slab8192Bytes ∧
    (Heap.layout_to_allocator ⟨64, 16384⟩).slab_capacity = some 8192 ∧
    ¬ ((16384 : Nat) ≤ 8192) := by decide

/-- C4: after a completed `init`, `start ≤ b_pos ≤ p_pos ≤ end` holds, and
any sequence of `alloc` / `alloc_pages` / `dealloc` / `dealloc_pages` /
`add_memory` operations preserves it while keeping `b_pos` non-decreasing and
`p_pos` non-increasing (so no completed operation ever makes
`b_pos > p_pos`). -/
theorem claim_c4_cursor_invariant :
    (∀ PS start size s0, EarlyAllocator.init PS start size = some s0 →
        EarlyAllocator.Inv s0) ∧
    (∀ PS (s s' : EarlyAllocator.State), EarlyAllocator.Inv s →
        EarlyAllocator.Steps PS s s' →
        EarlyAllocator.Inv s' ∧ s.b_pos ≤ s'.b_pos ∧ s'.p_pos ≤ s.p_pos) :=
  ⟨fun PS start size s0 h => (early_init_inv h).1,
   fun PS s s' hs h => early_steps_inv hs h⟩

/-- Witness for `claim_c4_cursor_invariant`: `init(0x1000, 0x2000)` with page
size `0x1000` yields a state satisfying the cursor invariant. -/
theorem claim_c4_cursor_invariant_witness :
    EarlyAllocator.Inv ⟨0x1000, 0x3000, 0x1000, 0x3000⟩ :=
  claim_c4_cursor_invariant.1 0x1000 0x1000 0x2000 ⟨0x1000, 0x3000, 0x1000, 0x3000⟩ rfl

/-- C5 (amended): for any state and any layout with power-of-two alignment
*whose alignment computation does not overflow `usize`*
(`b_pos + align < 2^64` and `align_up(b_pos, align) + size < 2^64`),
`alloc` computes `align_up(b_pos, align)`, succeeds returning it — an
address divisible by `align` — and bumps `b_pos` exactly when
`align_up(b_pos, align) + size ≤ p_pos`, and otherwise returns `NoMemory`
leaving the state unchanged.  (The original claim, with no overflow bound,
fails: see the counterexample.) -/
theorem claim_c5_alloc_aligned (s : EarlyAllocator.State) (l : Layout) (k : Nat)
    (hpow : l.align = 2 ^ k)
    (hov1 : s.b_pos + l.align < USIZE)
    (hov2 : align_up s.b_pos l.align + l.size < USIZE) :
    align_up s.b_pos l.align % l.align = 0 ∧
    (align_up s.b_pos l.align + l.size ≤ s.p_pos →
      EarlyAllocator.alloc s l =
        some (Except.ok (align_up s.b_pos l.align),
          { s with b_pos := align_up s.b_pos l.align + l.size })) ∧
    (s.p_pos < align_up s.b_pos l.align + l.size →
      EarlyAllocator.alloc s l = some (Except.error AllocError.NoMemory, s)) := by
  refine ⟨align_up_mod _ _, ?_, ?_⟩
  · intro hle
    rw [alloc_pow2_eq hpow hov1 hov2, if_pos hle]
  · intro hgt
    rw [alloc_pow2_eq hpow hov1 hov2, if_neg (by omega)]

/-- Witness for `claim_c5_alloc_aligned`: in the state after
`init(0x1000, 0x2000)`, `alloc(Layout{size:16, align:16})` returns the aligned
address `0x1000` and bumps `b_pos` to `0x1010`. -/
theorem claim_c5_alloc_aligned_witness :
    EarlyAllocator.alloc ⟨0x1000, 0x3000, 0x1000, 0x3000⟩ ⟨16, 16⟩ =
      some (Except.ok (align_up 0x1000 16),
        ⟨0x1000, 0x3000, align_up 0x1000 16 + 16, 0x3000⟩) ∧
    align_up 0x1000 16 % 16 = 0 := by
  have h := claim_c5_alloc_aligned ⟨0x1000, 0x3000, 0x1000, 0x3000⟩ ⟨16, 16⟩ 4
    (by decide) (by decide) (by decide)
  exact ⟨h.2.1 (by decide), h.1⟩

/-- C5 counterexample: the state after `init(0x8000000000001000, 0x2000)` and
the layout `{size:16, align:2^63}` (a power-of-two alignment).  The claim
demands the `NoMemory` error with the state unchanged (the aligned start,
`2^64`, plus 16 exceeds `p_pos`), but the computation
`b_pos + align` overflows `usize`, so the code aborts
(`none`) instead of returning an error. -/
theorem claim_c5_counterexample :
    EarlyAllocator.init 0x1000 0x8000000000001000 0x2000 =
      some ⟨0x8000000000001000, 0x8000000000003000,
        0x8000000000001000, 0x8000000000003000⟩ ∧
    (0x8000000000000000 : Nat) = 2 ^ 63 ∧
    EarlyAllocator.alloc
        ⟨0x8000000000001000, 0x8000000000003000,
          0x8000000000001000, 0x8000000000003000⟩
        ⟨16, 0x8000000000000000⟩ = none ∧
    EarlyAllocator.alloc
        ⟨0x8000000000001000, 0x8000000000003000,
          0x8000000000001000, 0x8000000000003000⟩
        ⟨16, 0x8000000000000000⟩ ≠
      some (Except.error AllocError.NoMemory,
        ⟨0x8000000000001000, 0x8000000000003000,
          0x8000000000001000, 0x8000000000003000⟩) :=
  ⟨rfl, by decide, rfl, by decide⟩

/-- C6 (code bug): in the state after `init(0x1000, 0x2000)` with page size
`0x1000`, the request `alloc_pages(4, 1)` has
`num_pages × PAGE_SIZE = 0x4000 > p_pos = 0x3000`: the subtraction
`p_pos - size` underflows `usize` and the code aborts (`none`) — it does not
return the `NoMemory` error with the state unchanged as the claim states.
(In an overflow-wrapping release build the same input instead spuriously
succeeds with a wrapped address, moving `p_pos` above `end`.) -/
theorem claim_c6_alloc_pages_underflow :
    EarlyAllocator.init 0x1000 0x1000 0x2000 = some ⟨0x1000, 0x3000, 0x1000, 0x3000⟩ ∧
    EarlyAllocator.alloc_pages 0x1000 ⟨0x1000, 0x3000, 0x1000, 0x3000⟩ 4 1 = none ∧
    EarlyAllocator.alloc_pages 0x1000 ⟨0x1000, 0x3000, 0x1000, 0x3000⟩ 4 1 ≠
      some (Except.error AllocError.NoMemory, ⟨0x1000, 0x3000, 0x1000, 0x3000⟩) :=
  ⟨rfl, rfl, by decide⟩

/-- C9: `EarlyAllocator::add_memory` always returns the `NoMemory` error and
leaves the allocator state unchanged, for every state and every input — it
never succeeds and never aborts. -/
theorem claim_c9_early_add_memory_unsupported (s : EarlyAllocator.State)
    (start size : Nat) :
    EarlyAllocator.add_memory s start size = (Except.error AllocError.NoMemory, s) :=
  rfl

/-- The heap produced by `Heap::new(0, 0x80000)`. -/
def c2_heap0 : Heap :=
  { slab_64_bytes := ⟨0, 0⟩, slab_128_bytes := ⟨0, 0⟩, slab_256_bytes := ⟨0, 0⟩,
    slab_512_bytes := ⟨0, 0⟩, slab_1024_bytes := ⟨0, 0⟩, slab_2048_bytes := ⟨0, 0⟩,
    slab_4096_bytes := ⟨0, 0⟩, slab_8192_bytes := ⟨0, 0⟩,
    buddy_allocator := ⟨[(0, 0x80000)], 0x80000, 0⟩ }

/-- The heap after additionally serving `allocate(Layout{size:8192, align:8})`
through the 8192-byte slab class (which grows once from the buddy tier). -/
def c2_heap1 : Heap :=
  { slab_64_bytes := ⟨0, 0⟩, slab_128_bytes := ⟨0, 0⟩, slab_256_bytes := ⟨0, 0⟩,
    slab_512_bytes := ⟨0, 0⟩, slab_1024_bytes := ⟨0, 0⟩, slab_2048_bytes := ⟨0, 0⟩,
    slab_4096_bytes := ⟨0, 0⟩, slab_8192_bytes := ⟨64, 1⟩,
    buddy_allocator := ⟨[(0, 0x80000)], 0x80000, 0x80000⟩ }

/-- C2 (code bug): `Heap::used_bytes` omits the `slab_8192_bytes` term.  In
the reachable state after `Heap::new(0, 0x80000)` and one allocation served by
the 8192-byte class, the code's `used_bytes()` (`0x80000`, all of it the buddy
bytes backing the grown class) differs from the claimed nine-way aggregation
by exactly `used_blocks × 8192 = 8192`. -/
theorem claim_c2_used_bytes_omits_8192 :
    Heap.new 0 0x80000 = some c2_heap0 ∧
    (Heap.allocate c2_heap0 ⟨8192, 8⟩).2 = c2_heap1 ∧
    HeapReach c2_heap1 ∧
    Heap.used_bytes c2_heap1 = 0x80000 ∧
    Heap.used_bytes_claimed c2_heap1 = 0x80000 + 8192 ∧
    Heap.used_bytes c2_heap1 ≠ Heap.used_bytes_claimed c2_heap1 := by
  have he : (Heap.allocate c2_heap0 ⟨8192, 8⟩).2 = c2_heap1 := by decide
  have h1 := HeapReach.allocate c2_heap0 ⟨8192, 8⟩
    (HeapReach.new 0 0x80000 c2_heap0 (by decide))
  rw [he] at h1
  exact ⟨by decide, he, h1, by decide, by decide, by decide⟩

/-- C3: on every reachable `Heap` state and every state of an initialized
`EarlyAllocator`, `total_bytes() = used_bytes() + available_bytes()`. -/
theorem claim_c3_stats_partition :
    (∀ h : Heap, HeapReach h →
        Heap.total_bytes h = Heap.used_bytes h + Heap.available_bytes h) ∧
    (∀ PS start size s0 s, EarlyAllocator.init PS start size = some s0 →
        EarlyAllocator.Steps PS s0 s →
        EarlyAllocator.total_bytes s =
          EarlyAllocator.used_bytes s + EarlyAllocator.available_bytes s) := by
  constructor
  · intro h hr
    have hle := heap_used_le_total (heapReach_wf hr)
    unfold Heap.available_bytes
    omega
  · intro PS start size s0 s h0 hs
    have hinv := (early_steps_inv (early_init_inv h0).1 hs).1
    obtain ⟨h1, h2, h3⟩ := hinv
    unfold EarlyAllocator.total_bytes EarlyAllocator.used_bytes
      EarlyAllocator.available_bytes
    omega

/-- Witness for `claim_c3_stats_partition`: the heap built by
`Heap::new(4096, 0x8000)` satisfies the partition identity. -/
theorem claim_c3_stats_partition_witness :
    Heap.total_bytes
        { slab_64_bytes := ⟨0, 0⟩, slab_128_bytes := ⟨0, 0⟩, slab_256_bytes := ⟨0, 0⟩,
          slab_512_bytes := ⟨0, 0⟩, slab_1024_bytes := ⟨0, 0⟩, slab_2048_bytes := ⟨0, 0⟩,
          slab_4096_bytes := ⟨0, 0⟩, slab_8192_bytes := ⟨0, 0⟩,
          buddy_allocator := ⟨[(4096, 0x9000)], 0x8000, 0⟩ } =
      Heap.used_bytes
        { slab_64_bytes := ⟨0, 0⟩, slab_128_bytes := ⟨0, 0⟩, slab_256_bytes := ⟨0, 0⟩,
          slab_512_bytes := ⟨0, 0⟩, slab_1024_bytes := ⟨0, 0⟩, slab_2048_bytes := ⟨0, 0⟩,
          slab_4096_bytes := ⟨0, 0⟩, slab_8192_bytes := ⟨0, 0⟩,
          buddy_allocator := ⟨[(4096, 0x9000)], 0x8000, 0⟩ } +
      Heap.available_bytes
        { slab_64_bytes := ⟨0, 0⟩, slab_128_bytes := ⟨0, 0⟩, slab_256_bytes := ⟨0, 0⟩,
          slab_512_bytes := ⟨0, 0⟩, slab_1024_bytes := ⟨0, 0⟩, slab_2048_bytes := ⟨0, 0⟩,
          slab_4096_bytes := ⟨0, 0⟩, slab_8192_bytes := ⟨0, 0⟩,
          buddy_allocator := ⟨[(4096, 0x9000)], 0x8000, 0⟩ } :=
  claim_c3_stats_partition.1 _ (HeapReach.new 4096 0x8000 _ (by decide))

/-- C7: `Heap::new(start, size)` aborts exactly when `start` is not
page-aligned, or `size < 0x8000`, or `size` is not a multiple of `0x8000`;
under the three preconditions it returns the heap whose eight slab classes
all have zero total and zero used blocks and whose buddy tier covers exactly
`[start, start + size)`. -/
theorem claim_c7_new_preconditions :
    (∀ start size,
        ¬ (start % 4096 = 0 ∧ MIN_HEAP_SIZE ≤ size ∧ size % MIN_HEAP_SIZE = 0) →
        Heap.new start size = none) ∧
    (∀ start size, start % 4096 = 0 → MIN_HEAP_SIZE ≤ size →
        size % MIN_HEAP_SIZE = 0 →
        Heap.new start size = some
          { slab_64_bytes := ⟨0, 0⟩, slab_128_bytes := ⟨0, 0⟩,
            slab_256_bytes := ⟨0, 0⟩, slab_512_bytes := ⟨0, 0⟩,
            slab_1024_bytes := ⟨0, 0⟩, slab_2048_bytes := ⟨0, 0⟩,
            slab_4096_bytes := ⟨0, 0⟩, slab_8192_bytes := ⟨0, 0⟩,
            buddy_allocator := ⟨[(start, start + size)], size, 0⟩ }) := by
  constructor
  · intro start size hnot
    unfold Heap.new
    split_ifs with h1 h2 h3
    · exact absurd ⟨h1, h2, h3⟩ hnot
    all_goals rfl
  · intro start size h1 h2 h3
    unfold Heap.new
    rw [if_pos h1, if_pos h2, if_pos h3]
    unfold Buddy.init Buddy.add_to_heap Buddy.new Slab.new
    simp only [List.nil_append, Nat.zero_add, Nat.add_sub_cancel_left]

/-- Witness for `claim_c7_new_preconditions`: `new(4096, 0x8000)` builds the
empty-slab heap over `[4096, 4096 + 0x8000)`; `new(4096, 0x7000)` (size below
the minimum and not a multiple of it) aborts. -/
theorem claim_c7_new_preconditions_witness :
    Heap.new 4096 0x8000 = some
      { slab_64_bytes := ⟨0, 0⟩, slab_128_bytes := ⟨0, 0⟩,
        slab_256_bytes := ⟨0, 0⟩, slab_512_bytes := ⟨0, 0⟩,
        slab_1024_bytes := ⟨0, 0⟩, slab_2048_bytes := ⟨0, 0⟩,
        slab_4096_bytes := ⟨0, 0⟩, slab_8192_bytes := ⟨0, 0⟩,
        buddy_allocator := ⟨[(4096, 4096 + 0x8000)], 0x8000, 0⟩ } ∧
    Heap.new 4096 0x7000 = none :=
  ⟨claim_c7_new_preconditions.2 4096 0x8000 (by decide) (by decide) (by decide),
   claim_c7_new_preconditions.1 4096 0x7000 (by decide)⟩

/-- C8 (amended): when its page-alignment asserts pass *and the caller-side
sum `start + size` does not overflow `usize`*, `Heap::add_memory` completes
and only touches the buddy tier: all eight slab classes (hence their
`total_blocks` and `used_blocks` counters) are exactly those of the original
heap.  (The original claim, with no overflow bound, fails: see the
counterexample.) -/
theorem claim_c8_add_memory_frame (h : Heap) (start size : Nat)
    (h1 : start % 4096 = 0) (h2 : size % 4096 = 0) (h3 : start + size < USIZE) :
    ∃ h', Heap.add_memory h start size = some h' ∧
      h'.slab_64_bytes = h.slab_64_bytes ∧ h'.slab_128_bytes = h.slab_128_bytes ∧
      h'.slab_256_bytes = h.slab_256_bytes ∧ h'.slab_512_bytes = h.slab_512_bytes ∧
      h'.slab_1024_bytes = h.slab_1024_bytes ∧ h'.slab_2048_bytes = h.slab_2048_bytes ∧
      h'.slab_4096_bytes = h.slab_4096_bytes ∧ h'.slab_8192_bytes = h.slab_8192_bytes := by
  refine ⟨{ h with buddy_allocator :=
      h.buddy_allocator.add_to_heap start (start + size) },
    ?_, rfl, rfl, rfl, rfl, rfl, rfl, rfl, rfl⟩
  have hca : checked_add start size = some (start + size) := by
    unfold checked_add
    rw [if_pos h3]
  unfold Heap.add_memory
  rw [if_pos h1, if_pos h2]
  simp only [hca]

/-- C8 counterexample: `start = 0xFFFFFFFFFFFFF000` and `size = 0x2000` are
both multiples of 4096 (so the claim as stated applies), yet the sum
`heap_start_addr + heap_size` at lib.rs:153 overflows `usize`, so the call
aborts instead of completing with the slab classes unchanged. -/
theorem claim_c8_counterexample :
    (0xFFFFFFFFFFFFF000 : Nat) % 4096 = 0 ∧ (0x2000 : Nat) % 4096 = 0 ∧
    Heap.add_memory
      ⟨⟨0, 0⟩, ⟨0, 0⟩, ⟨0, 0⟩, ⟨0, 0⟩, ⟨0, 0⟩, ⟨0, 0⟩, ⟨0, 0⟩, ⟨0, 0⟩, ⟨[], 0, 0⟩⟩
      0xFFFFFFFFFFFFF000 0x2000 = none := by decide

/-- Witness for `claim_c8_add_memory_frame`: adding `[4096, 8192)` to a fresh
zero-counter heap leaves every slab class untouched. -/
theorem claim_c8_add_memory_frame_witness :
    ∃ h', Heap.add_memory
        ⟨⟨0, 0⟩, ⟨0, 0⟩, ⟨0, 0⟩, ⟨0, 0⟩, ⟨0, 0⟩, ⟨0, 0⟩, ⟨0, 0⟩, ⟨0, 0⟩, ⟨[], 0, 0⟩⟩
        4096 4096 = some h' ∧
      h'.slab_64_bytes = ⟨0, 0⟩ ∧ h'.slab_128_bytes = ⟨0, 0⟩ ∧
      h'.slab_256_bytes = ⟨0, 0⟩ ∧ h'.slab_512_bytes = ⟨0, 0⟩ ∧
      h'.slab_1024_bytes = ⟨0, 0⟩ ∧ h'.slab_2048_bytes = ⟨0, 0⟩ ∧
      h'.slab_4096_bytes = ⟨0, 0⟩ ∧ h'.slab_8192_bytes = ⟨0, 0⟩ :=
  claim_c8_add_memory_frame
    ⟨⟨0, 0⟩, ⟨0, 0⟩, ⟨0, 0⟩, ⟨0, 0⟩, ⟨0, 0⟩, ⟨0, 0⟩, ⟨0, 0⟩, ⟨0, 0⟩, ⟨[], 0, 0⟩⟩
    4096 4096 rfl rfl (by decide)

/-- C10 (amended): on an initialized `LabByteAllocator` with page-aligned
arguments *whose sum `start + size` does not overflow `usize`*, `add_memory`
completes and returns `Ok(())`; moreover, for every input whatsoever, any
completed call returns `Ok(())` — the `NoMemory` outcome is unreachable from
this entry point.  (The original claim, with no overflow bound on the
completion part, fails: see the counterexample.) -/
theorem claim_c10_lab_add_memory_ok :
    (∀ (a : LabByteAllocator) (hp : Heap) (start size : Nat),
        a.inner = some hp → start % 4096 = 0 → size % 4096 = 0 →
        start + size < USIZE →
        LabByteAllocator.add_memory a start size =
          some (Except.ok (),
            ⟨some { hp with buddy_allocator :=
              hp.buddy_allocator.add_to_heap start (start + size) }⟩)) ∧
    (∀ (a : LabByteAllocator) (start size : Nat)
        (r : Except AllocError Unit × LabByteAllocator),
        LabByteAllocator.add_memory a start size = some r →
        r.1 = Except.ok ()) := by
  constructor
  · intro a hp start size hinner h1 h2 h3
    have he : Heap.add_memory hp start size = some
        { hp with buddy_allocator :=
          hp.buddy_allocator.add_to_heap start (start + size) } := by
      have hca : checked_add start size = some (start + size) := by
        unfold checked_add
        rw [if_pos h3]
      unfold Heap.add_memory
      rw [if_pos h1, if_pos h2]
      simp only [hca]
    simp only [LabByteAllocator.add_memory, hinner, he]
  · intro a start size r hr
    unfold LabByteAllocator.add_memory at hr
    split at hr
    · exact Option.noConfusion hr
    · split at hr
      · cases hr
        rfl
      · exact Option.noConfusion hr

/-- C10 counterexample: an initialized allocator with the page-aligned inputs
`start = 0xFFFFFFFFFFFFF000`, `size = 0x2000` (so the claim as stated
applies): the inner `heap_start_addr + heap_size` overflows `usize` and the
call aborts instead of returning `Ok(())`. -/
theorem claim_c10_counterexample :
    (0xFFFFFFFFFFFFF000 : Nat) % 4096 = 0 ∧ (0x2000 : Nat) % 4096 = 0 ∧
    LabByteAllocator.add_memory
      ⟨some ⟨⟨0, 0⟩, ⟨0, 0⟩, ⟨0, 0⟩, ⟨0, 0⟩, ⟨0, 0⟩, ⟨0, 0⟩, ⟨0, 0⟩, ⟨0, 0⟩, ⟨[], 0, 0⟩⟩⟩
      0xFFFFFFFFFFFFF000 0x2000 = none := by decide

/-- Witness for `claim_c10_lab_add_memory_ok`: a concrete initialized
allocator with aligned arguments gets `Ok(())`. -/
theorem claim_c10_lab_add_memory_ok_witness :
    LabByteAllocator.add_memory
      ⟨some ⟨⟨0, 0⟩, ⟨0, 0⟩, ⟨0, 0⟩, ⟨0, 0⟩, ⟨0, 0⟩, ⟨0, 0⟩, ⟨0, 0⟩, ⟨0, 0⟩, ⟨[], 0, 0⟩⟩⟩
      4096 4096 =
    some (Except.ok (),
      ⟨some ⟨⟨0, 0⟩, ⟨0, 0⟩, ⟨0, 0⟩, ⟨0, 0⟩, ⟨0, 0⟩, ⟨0, 0⟩, ⟨0, 0⟩, ⟨0, 0⟩,
        ⟨[(4096, 8192)], 4096, 0⟩⟩⟩) := by
  have h := claim_c10_lab_add_memory_ok.1
    ⟨some ⟨⟨0, 0⟩, ⟨0, 0⟩, ⟨0, 0⟩, ⟨0, 0⟩, ⟨0, 0⟩, ⟨0, 0⟩, ⟨0, 0⟩, ⟨0, 0⟩, ⟨[], 0, 0⟩⟩⟩
    ⟨⟨0, 0⟩, ⟨0, 0⟩, ⟨0, 0⟩, ⟨0, 0⟩, ⟨0, 0⟩, ⟨0, 0⟩, ⟨0, 0⟩, ⟨0, 0⟩, ⟨[], 0, 0⟩⟩
    4096 4096 rfl rfl rfl (by decide)
  exact h.trans (by decide)
